import Mathlib

/-!
Verification development for the Pustaka Nusantara metadata-enrichment
pipeline.  The definitions below are shallow embeddings of the two
enrichment scripts (`scripts/api_enrichment.py` for the Open Library
source and `scripts/get_google_data.py` for the Google Books source);
network requests are abstracted as oracles passed to the functions, and
the traces of requests/delays are returned explicitly so that retry and
rate-limit behaviour can be stated.
-/

namespace PustakaNusantara

/-! ## Python value and string primitives

Cells of the input dataset can hold strings, numbers, booleans or the
float `NaN`; the scripts apply `str(...)`, truthiness tests, `.strip()`,
`.lower()`, `.replace('-','')` and `', '.join(...)` to them.  These are
modelled here directly on the character lists underlying `String`. -/

inductive Val where
  | vInt (n : Int)
  | vStr (s : String)
  | vBool (b : Bool)
  | vNan
deriving DecidableEq, Repr

/-- Python `str(v)` (the float NaN prints as `"nan"`). -/
def pyStr : Val → String
  | .vInt n => toString n
  | .vStr s => s
  | .vBool b => if b then "True" else "False"
  | .vNan => "nan"

/-- Python truthiness (`0`, `""`, `False` are falsy; NaN is truthy). -/
def pyTruthy : Val → Bool
  | .vInt n => n ≠ 0
  | .vStr s => s ≠ ""
  | .vBool b => b
  | .vNan => true

/-- Python `s.strip()`: drop leading and trailing whitespace. -/
def pyStrip (s : String) : String :=
  ⟨((s.data.dropWhile Char.isWhitespace).reverse.dropWhile Char.isWhitespace).reverse⟩

/-- Python `s.lower()`. -/
def pyLower (s : String) : String :=
  ⟨s.data.map Char.toLower⟩

/-- Python `sep.join(xs)`. -/
def joinSep (sep : String) : List String → String
  | [] => ""
  | [x] => x
  | x :: y :: xs => x ++ sep ++ joinSep sep (y :: xs)

/-- Python `s.replace('-', '')`. -/
def removeDashes (s : String) : String :=
  ⟨s.data.filter (fun c => c ≠ '-')⟩

/-! ## Open Library enrichment: `scripts/api_enrichment.py` -/

/-- The record produced per title by the Open Library enrichment
(`api_*` columns).  `api_isbn` holds either the integer `0` (default)
or the first ISBN string of the matched document, exactly as in the
Python dict. -/
structure ApiRecord where
  api_found : Bool
  api_title : String
  api_author : String
  api_authors_all : String
  api_first_publish_year : Int
  api_isbn : Val
  api_isbn_all : String
  api_publisher : String
  api_publishers_all : String
  api_language : String
  api_number_of_pages : Int
  api_subject : String
  api_edition_count : Int
  api_has_fulltext : Bool
  api_search_url : String
deriving DecidableEq, Repr

/-- `get_default_data(found)` of `api_enrichment.py` (lines 42-60): the
Default Record Policy, a complete record of placeholder constants. -/
def getDefaultData (found : Bool) : ApiRecord where
  api_found := found
  api_title := "Unknown"
  api_author := "Unknown Author"
  api_authors_all := "Unknown Author"
  api_first_publish_year := 2020
  api_isbn := .vInt 0
  api_isbn_all := "0"
  api_publisher := "Unknown Publisher"
  api_publishers_all := "Unknown Publisher"
  api_language := "en"
  api_number_of_pages := 200
  api_subject := "General"
  api_edition_count := 1
  api_has_fulltext := false
  api_search_url := "https://openlibrary.org/"

/-- A document of the Open Library search response (`data['docs'][0]`);
each field is optional, matching `book.get(...)` with a default. -/
structure OLDoc where
  title : Option String
  author_name : Option (List String)
  first_publish_year : Option Int
  isbn : Option (List String)
  publisher : Option (List String)
  language : Option (List String)
  number_of_pages_median : Option Int
  subject : Option (List String)
  edition_count : Option Int
  has_fulltext : Option Bool
  key : Option String
deriving DecidableEq, Repr

/-- The "found" record built at `api_enrichment.py` lines 89-105.
Indexing `[0]` into a list that is present but empty raises an
`IndexError` in Python (caught by the surrounding `except Exception`),
modelled by returning `none`.  The `x if book.get(f) else y`
expressions use Python truthiness: a present-but-empty list takes the
`else` branch. -/
def buildFoundRecord (book : OLDoc) : Option ApiRecord :=
  match (book.author_name.getD ["Unknown Author"]).head?,
        (match book.isbn with
         | none => some (Val.vInt 0)
         | some l => l.head?.map Val.vStr),
        (book.publisher.getD ["Unknown"]).head?,
        (book.language.getD ["en"]).head? with
  | some auth, some isbnV, some pub, some lang =>
      some
        { api_found := true
          api_title := book.title.getD "Unknown"
          api_author := auth
          api_authors_all :=
            match book.author_name with
            | some (a :: as) => joinSep ", " (a :: as)
            | _ => "Unknown"
          api_first_publish_year := book.first_publish_year.getD 2020
          api_isbn := isbnV
          api_isbn_all :=
            match book.isbn with
            | some (x :: xs) => joinSep ", " ((x :: xs).take 3)
            | _ => "0"
          api_publisher := pub
          api_publishers_all :=
            match book.publisher with
            | some (p :: ps) => joinSep ", " ((p :: ps).take 3)
            | _ => "Unknown"
          api_language := lang
          api_number_of_pages := book.number_of_pages_median.getD 200
          api_subject :=
            match book.subject with
            | some (s :: ss) => joinSep ", " ((s :: ss).take 5)
            | _ => "General"
          api_edition_count := book.edition_count.getD 1
          api_has_fulltext := book.has_fulltext.getD false
          api_search_url :=
            match book.key with
            | some k => if k = "" then "https://openlibrary.org/" else "https://openlibrary.org" ++ k
            | none => "https://openlibrary.org/" }
  | _, _, _, _ => none

/-- Outcome of one `requests.get` attempt against the Open Library
search endpoint: a timeout, some other exception, or a response with a
status code and an optional `docs` list (`none` models a JSON body
without a `docs` key). -/
inductive ReqOutcome where
  | timeout
  | exc
  | success (status : Nat) (docs : Option (List OLDoc))
deriving DecidableEq, Repr

/-- Observable effects of `search_book_by_title`: one outbound request
attempt, or a `time.sleep` of the given number of seconds. -/
inductive Event where
  | request
  | sleepFor (secs : Nat)
deriving DecidableEq, Repr

def isRequest : Event → Bool
  | .request => true
  | _ => false

def isSleep : Event → Bool
  | .sleepFor _ => true
  | _ => false

/-- The retry loop `for attempt in range(max_retries)` of
`search_book_by_title` (lines 73-118), run over the remaining attempt
indices.  A timeout sleeps 2 seconds unless it was the last attempt; a
non-timeout exception (including an `IndexError` while building the
found record) retries without sleeping; a non-200 status silently
retries; a 200 response with a missing or empty `docs` list returns the
default record at once (success, no match). -/
def searchAttemptsAux (oracle : Nat → ReqOutcome) (maxRetries : Nat) :
    List Nat → ApiRecord × List Event
  | [] => (getDefaultData false, [])
  | a :: rest =>
    match oracle a with
    | .timeout =>
        let r := searchAttemptsAux oracle maxRetries rest
        if a < maxRetries - 1 then (r.1, .request :: .sleepFor 2 :: r.2)
        else (r.1, .request :: r.2)
    | .exc =>
        let r := searchAttemptsAux oracle maxRetries rest
        (r.1, .request :: r.2)
    | .success status docs =>
        if status = 200 then
          match docs with
          | some (book :: _) =>
              match buildFoundRecord book with
              | some rec => (rec, [.request])
              | none =>
                  let r := searchAttemptsAux oracle maxRetries rest
                  (r.1, .request :: r.2)
          | _ => (getDefaultData false, [.request])
        else
          let r := searchAttemptsAux oracle maxRetries rest
          (r.1, .request :: r.2)

/-- `search_book_by_title(title, max_retries)` (lines 62-118).  The
title is cleaned with `str(...).strip()`; a blank or `'nan'` title
returns the default record without any request.  The function is total:
every exception of the loop body is caught in the source, so the caller
never sees one. -/
def searchBookByTitle (oracle : Nat → ReqOutcome) (title : Val)
    (maxRetries : Nat) : ApiRecord × List Event :=
  let cleanTitle := pyStrip (pyStr title)
  if cleanTitle = "" ∨ pyLower cleanTitle = "nan" then (getDefaultData false, [])
  else searchAttemptsAux oracle maxRetries (List.range maxRetries)

/-! ### The enrichment orchestrator `enrich_dataset_with_api` (lines 120-182)

A dataset is modelled as its column-name list together with its rows;
each row carries the cell of the title column (`none` models a NaN
cell) and the rest of the row abstractly.  `main` runs the orchestrator
with `sample_size = None` (line 211), so the processed titles are
exactly the unique non-null titles; the `np.random.choice` sampling
branch is never taken in the pipeline and is not modelled. -/

structure DataFrame (α : Type) where
  cols : List String
  rows : List (Option String × α)
deriving DecidableEq, Repr

/-- First-occurrence deduplication, as `pandas.Series.unique`;
`seen` accumulates the values already emitted. -/
def uniqueListAux (seen : List String) : List String → List String
  | [] => []
  | t :: ts =>
      if t ∈ seen then uniqueListAux seen ts
      else t :: uniqueListAux (t :: seen) ts

/-- First-occurrence deduplication, as `pandas.Series.unique`. -/
def uniqueList (l : List String) : List String := uniqueListAux [] l

/-- `df[title_column].dropna().unique()` (line 130). -/
def uniqueTitles {α : Type} (df : DataFrame α) : List String :=
  uniqueList (df.rows.filterMap Prod.fst)

/-- The per-title enrichment table built by the loop at lines 146-157:
one row per processed title, tagged with `original_title` (the key of
the later merge).  The oracle gives each title its own sequence of
request outcomes; `max_retries` is 3, the default of
`search_book_by_title`. -/
def enrichTable (oracle : String → Nat → ReqOutcome) (titles : List String) :
    List (String × ApiRecord) :=
  titles.map (fun t => (t, (searchBookByTitle (oracle t) (.vStr t) 3).1))

/-- Key predicate of the pandas left merge on
`left_on=title_column, right_on='original_title'`: a NaN title
(`none`) matches no enrichment row. -/
def matchesKey (r1 : Option String) (e : String × ApiRecord) : Bool :=
  r1 == some e.1

/-- The `df.merge(enriched_df, how='left', ...)` of lines 164-170: each
left row is paired with every matching enrichment row, or kept once
with null enrichment columns when no row matches.  (`none` in the
second component models the all-NaN enrichment block of an unmatched
row.) -/
def leftMerge {α : Type} (rows : List (Option String × α))
    (table : List (String × ApiRecord)) :
    List ((Option String × α) × Option ApiRecord) :=
  rows.flatMap (fun r =>
    match table.filter (matchesKey r.1) with
    | [] => [(r, none)]
    | ms => ms.map (fun e => (r, some e.2)))

/-- The completeness pass of lines 176-180: each enrichment column is
`fillna`-ed with its default constant.  An unmatched left-join row has
every enrichment column null at once, so the per-column fill replaces
its whole enrichment block by `get_default_data(False)`. -/
def fillWithDefaults {α : Type}
    (rows : List ((Option String × α) × Option ApiRecord)) :
    List ((Option String × α) × ApiRecord) :=
  rows.map (fun p => (p.1, p.2.getD (getDefaultData false)))

/-- Result of `enrich_dataset_with_api`: when the title column is
missing the input dataframe itself is returned (line 127); when the
per-title enrichment list is empty — title column present but without
a single non-null value, or a zero-row dataset — `pd.DataFrame([])` at
line 160 has no columns at all, so the merge at line 164 with
`right_on='original_title'` raises an uncaught `KeyError` and the
function produces nothing (`mergeKeyError`); otherwise the
merged-and-filled frame is returned. -/
inductive EnrichResult (α : Type) where
  | unchanged (df : DataFrame α)
  | mergeKeyError
  | enriched (rows : List ((Option String × α) × ApiRecord))
deriving DecidableEq, Repr

/-- `enrich_dataset_with_api(df, title_column)` (lines 120-182) with
`sample_size = None`, as invoked by `main`. -/
def enrichDatasetWithApi {α : Type} (oracle : String → Nat → ReqOutcome)
    (df : DataFrame α) (titleColumn : String) : EnrichResult α :=
  if df.cols.contains titleColumn then
    if enrichTable oracle (uniqueTitles df) = [] then .mergeKeyError
    else .enriched (fillWithDefaults (leftMerge df.rows
      (enrichTable oracle (uniqueTitles df))))
  else .unchanged df

/-- The tail of `main` (lines 215-232) after the input CSV has been
loaded: the dataset is enriched and, unless the result is `None`, the
result is written to the output CSV.  `enrich_dataset_with_api` never
returns `None` — on a missing title column it returns the dataframe
unchanged — so the `if enriched_df is None` guard at line 222 can never
fire; `some r` means an output file with content `r` is written, while
the uncaught merge `KeyError` propagates through `main` and aborts the
run with no output (`none`). -/
def mainPipeline {α : Type} (oracle : String → Nat → ReqOutcome)
    (df : DataFrame α) : Option (EnrichResult α) :=
  match enrichDatasetWithApi oracle df "Title" with
  | .mergeKeyError => none
  | r => some r

/-! ## Google Books enrichment: `scripts/get_google_data.py` -/

/-- A query sent to the Google Books volumes endpoint: either
`?q=isbn:<clean_isbn>` or `?q=intitle:<title>[+inauthor:<author>]`. -/
inductive GQuery where
  | isbnQ (clean : String)
  | titleQ (title : String) (author : Option String)
deriving DecidableEq, Repr

/-- A volume's `volumeInfo` object; each field optional as read via
`info_raw.get(...)`. -/
structure VolumeInfo where
  averageRating : Option Int
  ratingsCount : Option Int
  pageCount : Option Int
  categories : Option (List String)
  description : Option String
deriving DecidableEq, Repr

/-- Outcome of one `requests.get` against the Google Books endpoint:
an exception, or a response with status and an optional `items` list
(`none` models a JSON body without an `items` key). -/
inductive GResp where
  | exc
  | resp (status : Nat) (items : Option (List VolumeInfo))
deriving DecidableEq, Repr

/-- The guard on the ISBN strategy (line 23 of `get_google_data.py`). -/
def isbnEligible (isbn : Val) : Bool :=
  pyTruthy isbn && (pyLower (pyStr isbn) != "nan") && (pyLower (pyStr isbn) != "unknown")

/-- The guard on the title strategy (line 35). -/
def titleEligible (title : String) : Bool :=
  (title != "") && (pyLower title != "unknown")

/-- The guard deciding whether `+inauthor:` is appended (line 37). -/
def authorEligible (author : Val) : Bool :=
  pyTruthy author && (pyLower (pyStr author) != "unknown")

/-- `str(isbn).replace('-', '').strip()` (line 24). -/
def cleanIsbn (isbn : Val) : String :=
  pyStrip (removeDashes (pyStr isbn))

def isTitleQ : GQuery → Bool
  | .titleQ _ _ => true
  | _ => false

/-- The title-based query step of `get_book_info_from_google`
(lines 34-47): a single request whose query carries `+inauthor:` when a
usable author is known; there is no further query if it fails.
`qs0` is the trace of queries already issued.  As in the ISBN step, a
present-but-empty `items` list raises an `IndexError` caught by the
bare `except`, and a missing key or non-200 status falls through —
all of these end in `return None`. -/
def googleTitleStep (oracle : GQuery → GResp) (title : String) (author : Val)
    (qs0 : List GQuery) : Option VolumeInfo × List GQuery :=
  if titleEligible title then
    match oracle (GQuery.titleQ title
        (if authorEligible author then some (pyStr author) else none)) with
    | .resp 200 (some (v :: _)) =>
        (some v, qs0 ++ [GQuery.titleQ title
          (if authorEligible author then some (pyStr author) else none)])
    | _ =>
        (none, qs0 ++ [GQuery.titleQ title
          (if authorEligible author then some (pyStr author) else none)])
  else (none, qs0)

/-- `get_book_info_from_google(isbn, title, author)` (lines 15-49),
returning the matched `volumeInfo` (or `none`) together with the
queries issued, in order. -/
def getBookInfoFromGoogle (oracle : GQuery → GResp) (isbn : Val)
    (title : String) (author : Val) : Option VolumeInfo × List GQuery :=
  if isbnEligible isbn then
    match oracle (GQuery.isbnQ (cleanIsbn isbn)) with
    | .resp 200 (some (v :: _)) => (some v, [GQuery.isbnQ (cleanIsbn isbn)])
    | _ => googleTitleStep oracle title author [GQuery.isbnQ (cleanIsbn isbn)]
  else googleTitleStep oracle title author []

/-- The tidy per-title record cached and appended to the output columns
(lines 100-109). -/
structure Info where
  rating : Int
  count : Int
  pages : Int
  categories : String
  descText : String
deriving DecidableEq, Repr

/-- Lines 100-106: project a found `volumeInfo` to the cached record. -/
def mkInfo (v : VolumeInfo) : Info where
  rating := v.averageRating.getD 0
  count := v.ratingsCount.getD 0
  pages := v.pageCount.getD 0
  categories := joinSep ", " (v.categories.getD ["Unknown"])
  descText := v.description.getD ""

/-- Line 109: the default record when no strategy matched. -/
def defaultInfo : Info := ⟨0, 0, 0, "Unknown", ""⟩

/-- One row of the input dataset as read by the loop (lines 84-96). -/
structure GRow where
  title : Val
  api_isbn : Val
  api_author : Val
deriving DecidableEq, Repr

/-- `title_key = str(row.get('Title', 'Unknown')).strip()` (line 86). -/
def rowKey (r : GRow) : String := pyStrip (pyStr r.title)

/-- Python `dict` lookup on the cache. -/
def dictGet (k : String) : List (String × Info) → Option Info
  | [] => none
  | p :: ps => if p.1 = k then some p.2 else dictGet k ps

/-- Python `dict` assignment `cache[k] = v` (a fresh key is appended). -/
def dictSet (k : String) (v : Info) : List (String × Info) → List (String × Info)
  | [] => [(k, v)]
  | p :: ps => if p.1 = k then (k, v) :: ps else p :: dictSet k v ps

/-- What one loop iteration recorded: the title key, `none` for a cache
hit or `some qs` for a miss that issued the queries `qs`, and the
record appended to the output columns. -/
structure RowLog where
  key : String
  remote : Option (List GQuery)
  served : Info
deriving DecidableEq, Repr

/-- State of the `main` loop of `get_google_data.py`: the in-memory
cache, the content of the durable cache file, the `rows_processed`
counter, the per-row log, and the largest number of
cached-but-unflushed entries observed so far. -/
structure GState where
  cache : List (String × Info)
  flushed : List (String × Info)
  rowsProcessed : Nat
  trace : List RowLog
  maxUnflushed : Nat
deriving DecidableEq, Repr

/-- State at loop entry: the cache was just loaded from the durable
file, so both agree and nothing is unflushed. -/
def initState (cache0 : List (String × Info)) : GState :=
  ⟨cache0, cache0, 0, [], 0⟩

/-- Resolution of one cache miss (lines 92-109): call
`get_book_info_from_google` with the row's `api_isbn`, the stripped
title key, and `api_author`; tidy a found `volumeInfo`, or take the
default record. -/
def resolveRow (oracle : GQuery → GResp) (r : GRow) : Info × List GQuery :=
  ((match (getBookInfoFromGoogle oracle r.api_isbn (rowKey r) r.api_author).1 with
    | some v => mkInfo v
    | none => defaultInfo),
   (getBookInfoFromGoogle oracle r.api_isbn (rowKey r) r.api_author).2)

/-- One iteration of the loop at lines 84-129.  A cache hit serves the
cached record with no request.  A miss resolves via
`get_book_info_from_google`, stores the result in the cache, and — only
inside this miss branch — rewrites the durable cache file when
`rows_processed % 50 == 0` (line 115); `rows_processed` counts all
rows, hits included, and is incremented at the end of the iteration. -/
def processRow (oracle : GQuery → GResp) (st : GState) (r : GRow) : GState :=
  match dictGet (rowKey r) st.cache with
  | some info =>
      { cache := st.cache
        flushed := st.flushed
        rowsProcessed := st.rowsProcessed + 1
        trace := st.trace ++ [⟨rowKey r, none, info⟩]
        maxUnflushed := max st.maxUnflushed (st.cache.length - st.flushed.length) }
  | none =>
      { cache := dictSet (rowKey r) (resolveRow oracle r).1 st.cache
        flushed :=
          if st.rowsProcessed % 50 = 0
          then dictSet (rowKey r) (resolveRow oracle r).1 st.cache
          else st.flushed
        rowsProcessed := st.rowsProcessed + 1
        trace := st.trace ++
          [⟨rowKey r, some (resolveRow oracle r).2, (resolveRow oracle r).1⟩]
        maxUnflushed := max st.maxUnflushed
          ((dictSet (rowKey r) (resolveRow oracle r).1 st.cache).length -
            (if st.rowsProcessed % 50 = 0
              then dictSet (rowKey r) (resolveRow oracle r).1 st.cache
              else st.flushed).length) }

/-- The whole loop over the dataset rows. -/
def googleLoop (oracle : GQuery → GResp) (cache0 : List (String × Info))
    (rows : List GRow) : GState :=
  rows.foldl (processRow oracle) (initState cache0)

/-- `main` of `get_google_data.py` after loading input and cache: run
the loop, then write the cache file one final time (lines 131-133). -/
def runGoogleMain (oracle : GQuery → GResp) (cache0 : List (String × Info))
    (rows : List GRow) : GState :=
  let final := googleLoop oracle cache0 rows
  { final with flushed := final.cache }

/-! ## Helper lemmas: the retry loop -/

/-- The event trace of a run in which every attempt times out:
one request per attempt, with the 2-second delay between consecutive
attempts (no delay after the last). -/
def retryTrace : Nat → List Event
  | 0 => []
  | 1 => [.request]
  | n + 2 => .request :: .sleepFor 2 :: retryTrace (n + 1)

lemma retryTrace_countP_request : ∀ m, (retryTrace m).countP isRequest = m := by
  intro m
  induction m using retryTrace.induct with
  | case1 => rfl
  | case2 => rfl
  | case3 n ih =>
      simp [retryTrace, List.countP_cons, isRequest, isSleep] at ih ⊢
      omega

lemma retryTrace_countP_sleep : ∀ m, (retryTrace m).countP isSleep = m - 1 := by
  intro m
  induction m using retryTrace.induct with
  | case1 => rfl
  | case2 => rfl
  | case3 n ih =>
      simp [retryTrace, List.countP_cons, isRequest, isSleep] at ih ⊢
      omega

lemma searchAttemptsAux_timeout (oracle : Nat → ReqOutcome)
    (ht : ∀ i, oracle i = .timeout) (m : Nat) :
    ∀ k a, a + k = m →
      searchAttemptsAux oracle m (List.range' a k)
        = (getDefaultData false, retryTrace k) := by
  intro k
  induction k with
  | zero => intro a _; rfl
  | succ j ih =>
      intro a ha
      rw [List.range'_succ]
      simp only [searchAttemptsAux, ht a]
      rw [ih (a + 1) (by omega)]
      rcases j with _ | j'
      · have hlt : ¬ a < m - 1 := by omega
        simp [hlt, retryTrace]
      · have hlt : a < m - 1 := by omega
        simp [hlt, retryTrace]

lemma searchAttemptsAux_timeout_fst (oracle : Nat → ReqOutcome)
    (ht : ∀ i, oracle i = .timeout) (m : Nat) :
    ∀ l, (searchAttemptsAux oracle m l).1 = getDefaultData false := by
  intro l
  induction l with
  | nil => rfl
  | cons a rest ih =>
      simp only [searchAttemptsAux, ht a]
      split <;> simpa using ih

lemma searchAttemptsAux_noMatch_fst (oracle : Nat → ReqOutcome)
    (h1 : ∀ i, oracle i = .success 200 (some [])) (m : Nat) :
    ∀ l, (searchAttemptsAux oracle m l).1 = getDefaultData false := by
  intro l
  cases l with
  | nil => rfl
  | cons a rest => simp [searchAttemptsAux, h1 a]

/-! ## Claim theorems: the Remote Catalog Client -/

/-- C9 (confirmed): a title value that is blank after stripping, or
whose string form is `'nan'`, is resolved to the default not-found
record directly, with an empty event trace — no request and no delay
(`api_enrichment.py` lines 68-71). -/
theorem blank_title_short_circuit (oracle : Nat → ReqOutcome) (title : Val)
    (m : Nat) (h : pyStrip (pyStr title) = "" ∨ pyStr title = "nan") :
    searchBookByTitle oracle title m = (getDefaultData false, []) := by
  unfold searchBookByTitle
  rcases h with h | h
  · rw [if_pos (Or.inl h)]
  · have h2 : pyLower (pyStrip (pyStr title)) = "nan" := by rw [h]; rfl
    rw [if_pos (Or.inr h2)]

/-- Witness for `blank_title_short_circuit` at the NaN title. -/
theorem blank_title_short_circuit_witness :
    searchBookByTitle (fun _ => ReqOutcome.timeout) Val.vNan 3
      = (getDefaultData false, []) :=
  blank_title_short_circuit (fun _ => ReqOutcome.timeout) Val.vNan 3 (Or.inr rfl)

/-- C3 (corrected, counterexample): the retry-bound claim quantifies
over every title, but for the blank title the function issues zero
request attempts, not `max_retries = 3`, even though the
every-request-times-out hypothesis holds vacuously for the all-timeout
oracle. -/
theorem retry_bound_fails_on_blank_title :
    (searchBookByTitle (fun _ => ReqOutcome.timeout) (Val.vStr "") 3).2.countP
        isRequest = 0 ∧ (0 : Nat) ≠ 3 := by
  exact ⟨rfl, by omega⟩

/-- C3 (amended): for every title that survives the blank/`'nan'`
guard, and every `max_retries`, an oracle whose every attempt times out
yields exactly `max_retries` request attempts with the fixed 2-second
delay between consecutive attempts, and the default not-found record is
returned; the function is total, so no exception reaches the caller. -/
theorem retry_bound_timeout (oracle : Nat → ReqOutcome) (title : Val) (m : Nat)
    (hb : ¬(pyStrip (pyStr title) = "" ∨ pyLower (pyStrip (pyStr title)) = "nan"))
    (ht : ∀ i, oracle i = ReqOutcome.timeout) :
    searchBookByTitle oracle title m = (getDefaultData false, retryTrace m) ∧
    (retryTrace m).countP isRequest = m ∧
    (retryTrace m).countP isSleep = m - 1 := by
  refine ⟨?_, retryTrace_countP_request m, retryTrace_countP_sleep m⟩
  unfold searchBookByTitle
  rw [if_neg hb]
  have h := searchAttemptsAux_timeout oracle ht m m 0 (by omega)
  rwa [List.range_eq_range']

/-- Witness for `retry_bound_timeout` at the title `"Dune"` and
`max_retries = 3`. -/
theorem retry_bound_timeout_witness :
    searchBookByTitle (fun _ => ReqOutcome.timeout) (Val.vStr "Dune") 3
        = (getDefaultData false, retryTrace 3) ∧
    (retryTrace 3).countP isRequest = 3 ∧
    (retryTrace 3).countP isSleep = 3 - 1 :=
  retry_bound_timeout (fun _ => ReqOutcome.timeout) (Val.vStr "Dune") 3
    (by decide) (fun _ => rfl)

/-- C6 (corrected, counterexample): a successful response with an empty
result set and a run in which every attempt times out return the very
same value, the default not-found record — the two outcomes are not
distinguishable, contrary to the claim (`api_enrichment.py` lines
106-108 and 117-118 both return `get_default_data(found=False)`). -/
theorem failure_record_equals_no_match_record :
    (searchBookByTitle (fun _ => ReqOutcome.success 200 (some []))
        (Val.vStr "Dune") 3).1
      = (searchBookByTitle (fun _ => ReqOutcome.timeout) (Val.vStr "Dune") 3).1 ∧
    (searchBookByTitle (fun _ => ReqOutcome.success 200 (some []))
        (Val.vStr "Dune") 3).1.api_found = false :=
  ⟨rfl, rfl⟩

/-- C6 (amended): both the empty-result ("no match") outcome and the
retries-exhausted ("failure") outcome return the identical default
not-found record, for every title and every retry bound. -/
theorem no_match_vs_failure_same_record (oracle1 oracle2 : Nat → ReqOutcome)
    (title : Val) (m : Nat)
    (h1 : ∀ i, oracle1 i = ReqOutcome.success 200 (some []))
    (h2 : ∀ i, oracle2 i = ReqOutcome.timeout) :
    (searchBookByTitle oracle1 title m).1 = getDefaultData false ∧
    (searchBookByTitle oracle2 title m).1 = getDefaultData false := by
  constructor
  · unfold searchBookByTitle
    by_cases hc : pyStrip (pyStr title) = "" ∨ pyLower (pyStrip (pyStr title)) = "nan"
    · rw [if_pos hc]
    · rw [if_neg hc]
      exact searchAttemptsAux_noMatch_fst oracle1 h1 m _
  · unfold searchBookByTitle
    by_cases hc : pyStrip (pyStr title) = "" ∨ pyLower (pyStrip (pyStr title)) = "nan"
    · rw [if_pos hc]
    · rw [if_neg hc]
      exact searchAttemptsAux_timeout_fst oracle2 h2 m _

/-- Witness for `no_match_vs_failure_same_record` at `"Hobbit"`. -/
theorem no_match_vs_failure_same_record_witness :
    (searchBookByTitle (fun _ => ReqOutcome.success 200 (some []))
        (Val.vStr "Hobbit") 2).1 = getDefaultData false ∧
    (searchBookByTitle (fun _ => ReqOutcome.timeout) (Val.vStr "Hobbit") 2).1
      = getDefaultData false :=
  no_match_vs_failure_same_record _ _ (Val.vStr "Hobbit") 2
    (fun _ => rfl) (fun _ => rfl)

/-! ## Claim theorems: per-field defaults of the found record -/

/-- An Open Library document with every field absent. -/
def emptyOLDoc : OLDoc :=
  ⟨none, none, none, none, none, none, none, none, none, none, none⟩

/-- C10 (corrected, counterexample): a found record built from a
document omitting the author list sets `api_authors_all` to
`'Unknown'` — not to the `'Unknown Author'` constant the not-found
record uses, so not every per-field fallback agrees with the Default
Record Policy. -/
theorem found_record_authors_all_differs :
    (searchBookByTitle (fun _ => ReqOutcome.success 200 (some [emptyOLDoc]))
        (Val.vStr "Book") 3).1.api_found = true ∧
    (searchBookByTitle (fun _ => ReqOutcome.success 200 (some [emptyOLDoc]))
        (Val.vStr "Book") 3).1.api_authors_all = "Unknown" ∧
    (getDefaultData false).api_authors_all = "Unknown Author" ∧
    ("Unknown" : String) ≠ "Unknown Author" :=
  ⟨rfl, rfl, rfl, by decide⟩

/-- C10 (amended): whenever `search_book_by_title` builds a found
record, each attribute whose source field is absent falls back to a
fixed constant; for most attributes that constant coincides with the
not-found record's, but `api_authors_all`, `api_publisher` and
`api_publishers_all` fall back to `'Unknown'` instead of the not-found
record's `'Unknown Author'` / `'Unknown Publisher'`.  In particular
`api_found = true` does not imply that any attribute differs from its
per-field fallback. -/
theorem found_record_field_defaults (book : OLDoc) (r : ApiRecord)
    (h : buildFoundRecord book = some r) :
    r.api_found = true ∧
    (book.title = none → r.api_title = (getDefaultData false).api_title) ∧
    (book.author_name = none →
      r.api_author = (getDefaultData false).api_author ∧
      r.api_authors_all = "Unknown") ∧
    (book.first_publish_year = none →
      r.api_first_publish_year = (getDefaultData false).api_first_publish_year) ∧
    (book.isbn = none →
      r.api_isbn = (getDefaultData false).api_isbn ∧
      r.api_isbn_all = (getDefaultData false).api_isbn_all) ∧
    (book.publisher = none →
      r.api_publisher = "Unknown" ∧ r.api_publishers_all = "Unknown") ∧
    (book.language = none → r.api_language = (getDefaultData false).api_language) ∧
    (book.number_of_pages_median = none →
      r.api_number_of_pages = (getDefaultData false).api_number_of_pages) ∧
    (book.subject = none → r.api_subject = (getDefaultData false).api_subject) ∧
    (book.edition_count = none →
      r.api_edition_count = (getDefaultData false).api_edition_count) ∧
    (book.has_fulltext = none →
      r.api_has_fulltext = (getDefaultData false).api_has_fulltext) ∧
    (book.key = none → r.api_search_url = (getDefaultData false).api_search_url) := by
  unfold buildFoundRecord at h
  split at h
  case _ auth isbnV pub lang hauth hisbn hpub hlang =>
    injection h with h
    subst h
    refine ⟨rfl, fun ht => ?_, fun ha => ?_, fun hy => ?_, fun hi => ?_,
      fun hp => ?_, fun hl => ?_, fun hn => ?_, fun hs => ?_, fun he => ?_,
      fun hf => ?_, fun hk => ?_⟩
    · simp [ht, getDefaultData]
    · rw [ha] at hauth
      simp only [Option.getD_none, List.head?_cons, Option.some.injEq] at hauth
      exact ⟨by simp [getDefaultData, ← hauth], by simp [ha]⟩
    · simp [hy, getDefaultData]
    · rw [hi] at hisbn
      simp only [Option.some.injEq] at hisbn
      exact ⟨by simp [getDefaultData, ← hisbn], by simp [hi, getDefaultData]⟩
    · rw [hp] at hpub
      simp only [Option.getD_none, List.head?_cons, Option.some.injEq] at hpub
      exact ⟨by simp [← hpub], by simp [hp]⟩
    · rw [hl] at hlang
      simp only [Option.getD_none, List.head?_cons, Option.some.injEq] at hlang
      simp [getDefaultData, ← hlang]
    · simp [hn, getDefaultData]
    · simp [hs, getDefaultData]
    · simp [he, getDefaultData]
    · simp [hf, getDefaultData]
    · simp [hk, getDefaultData]
  case _ =>
    exact absurd h (by simp)

/-- The record `buildFoundRecord` produces from the all-absent
document: every attribute is its per-field fallback constant. -/
def allFallbackRecord : ApiRecord where
  api_found := true
  api_title := "Unknown"
  api_author := "Unknown Author"
  api_authors_all := "Unknown"
  api_first_publish_year := 2020
  api_isbn := .vInt 0
  api_isbn_all := "0"
  api_publisher := "Unknown"
  api_publishers_all := "Unknown"
  api_language := "en"
  api_number_of_pages := 200
  api_subject := "General"
  api_edition_count := 1
  api_has_fulltext := false
  api_search_url := "https://openlibrary.org/"

/-- Witness for `found_record_field_defaults` at the all-absent
document. -/
theorem found_record_field_defaults_witness :
    buildFoundRecord emptyOLDoc = some allFallbackRecord ∧
    allFallbackRecord.api_author = (getDefaultData false).api_author ∧
    allFallbackRecord.api_authors_all = "Unknown" ∧
    allFallbackRecord.api_number_of_pages
      = (getDefaultData false).api_number_of_pages :=
  ⟨rfl,
    ((found_record_field_defaults emptyOLDoc allFallbackRecord rfl).2.2.1 rfl).1,
    ((found_record_field_defaults emptyOLDoc allFallbackRecord rfl).2.2.1 rfl).2,
    (found_record_field_defaults emptyOLDoc allFallbackRecord
      rfl).2.2.2.2.2.2.2.1 rfl⟩

/-! ## Helper lemmas: the orchestrator merge -/

lemma mem_uniqueListAux (x : String) :
    ∀ (l seen : List String), x ∈ uniqueListAux seen l → x ∈ l ∧ x ∉ seen := by
  intro l
  induction l with
  | nil => intro seen h; simp [uniqueListAux] at h
  | cons t ts ih =>
      intro seen h
      rw [uniqueListAux] at h
      by_cases hs : t ∈ seen
      · rw [if_pos hs] at h
        obtain ⟨h1, h2⟩ := ih seen h
        exact ⟨List.mem_cons_of_mem _ h1, h2⟩
      · rw [if_neg hs] at h
        rcases List.mem_cons.mp h with h | h
        · subst h
          exact ⟨List.mem_cons_self x ts, hs⟩
        · obtain ⟨h1, h2⟩ := ih (t :: seen) h
          exact ⟨List.mem_cons_of_mem _ h1,
            fun hx => h2 (List.mem_cons_of_mem _ hx)⟩

lemma uniqueListAux_nodup : ∀ l seen : List String,
    (uniqueListAux seen l).Nodup := by
  intro l
  induction l with
  | nil => intro seen; simp [uniqueListAux]
  | cons t ts ih =>
      intro seen
      rw [uniqueListAux]
      by_cases hs : t ∈ seen
      · rw [if_pos hs]
        exact ih seen
      · rw [if_neg hs]
        refine List.nodup_cons.mpr ⟨fun hmem => ?_, ih (t :: seen)⟩
        exact (mem_uniqueListAux t ts (t :: seen) hmem).2
          (List.mem_cons_self t seen)

lemma uniqueList_nodup : ∀ l : List String, (uniqueList l).Nodup :=
  fun l => uniqueListAux_nodup l []

lemma enrichTable_keys (oracle : String → Nat → ReqOutcome) :
    ∀ titles : List String, (enrichTable oracle titles).map Prod.fst = titles := by
  intro titles
  induction titles with
  | nil => rfl
  | cons t ts ih =>
      simp only [enrichTable, List.map_cons] at ih ⊢
      rw [ih]

lemma filter_matchesKey_len_le_one (r1 : Option String) :
    ∀ table : List (String × ApiRecord), (table.map Prod.fst).Nodup →
      (table.filter (matchesKey r1)).length ≤ 1 := by
  intro table
  induction table with
  | nil => simp
  | cons e t ih =>
      intro h
      rw [List.map_cons, List.nodup_cons] at h
      obtain ⟨he, ht⟩ := h
      by_cases hm : matchesKey r1 e
      · rw [List.filter_cons_of_pos hm]
        have hnil : t.filter (matchesKey r1) = [] := by
          refine List.filter_eq_nil_iff.mpr fun b hb hmb => ?_
          have h1 : r1 = some e.1 := by simpa [matchesKey] using hm
          have h2 : r1 = some b.1 := by simpa [matchesKey] using hmb
          have hb1 : e.1 = b.1 := by
            rw [h1] at h2
            exact Option.some.inj h2
          apply he
          rw [hb1]
          exact List.mem_map.mpr ⟨b, hb, rfl⟩
        simp [hnil]
      · rw [List.filter_cons_of_neg hm]
        exact ih ht

lemma leftMerge_map_fst {α : Type} (table : List (String × ApiRecord))
    (h : (table.map Prod.fst).Nodup) :
    ∀ rows : List (Option String × α), (leftMerge rows table).map Prod.fst = rows := by
  intro rows
  induction rows with
  | nil => rfl
  | cons r rs ih =>
      unfold leftMerge at ih ⊢
      rw [List.flatMap_cons, List.map_append, ih]
      cases hf : table.filter (matchesKey r.1) with
      | nil => simp
      | cons e es =>
          have hlen := filter_matchesKey_len_le_one r.1 table h
          rw [hf] at hlen
          simp only [List.length_cons] at hlen
          have hes : es = [] := List.eq_nil_of_length_eq_zero (by omega)
          subst hes
          simp

lemma mem_leftMerge {α : Type} {rows : List (Option String × α)}
    {table : List (String × ApiRecord)}
    {p : (Option String × α) × Option ApiRecord} (hp : p ∈ leftMerge rows table) :
    p.1 ∈ rows ∧
      (p.2 = none ∨ ∃ e, e ∈ table ∧ p.1.1 = some e.1 ∧ p.2 = some e.2) := by
  unfold leftMerge at hp
  rw [List.mem_flatMap] at hp
  obtain ⟨r, hr, hpr⟩ := hp
  cases hf : table.filter (matchesKey r.1) with
  | nil =>
      rw [hf] at hpr
      simp only [List.mem_singleton] at hpr
      subst hpr
      exact ⟨hr, Or.inl rfl⟩
  | cons e es =>
      rw [hf] at hpr
      rw [List.mem_map] at hpr
      obtain ⟨a, ha, hpa⟩ := hpr
      have haf : a ∈ table.filter (matchesKey r.1) := hf ▸ ha
      obtain ⟨hat, ham⟩ := List.mem_filter.mp haf
      subst hpa
      refine ⟨hr, Or.inr ⟨a, hat, ?_, rfl⟩⟩
      simpa [matchesKey] using ham

/-! ## Claim theorems: the orchestrator -/

/-- C2 (corrected, counterexample): at a non-empty dataset whose title
column is present but holds only NaN, the unique-title list is empty,
`pd.DataFrame([])` has no `original_title` column, and the merge
raises an uncaught `KeyError` — there is no output whose row count
could equal the input's, contrary to the for-every-dataset claim. -/
theorem enrich_row_preservation_fails_on_all_nan :
    enrichDatasetWithApi (fun _ _ => ReqOutcome.timeout)
        (⟨["Title"], [(none, 0), (none, 1)]⟩ : DataFrame Nat) "Title"
      = EnrichResult.mergeKeyError := rfl

/-- C2 (amended): with the title column present and at least one
non-null title, the enriched output keeps exactly the input rows, in
order (so also the same row count), and the enrichment table has
pairwise-distinct title keys, so the left join can neither drop nor
duplicate a row; when every title is null the merge instead raises a
`KeyError` and produces no output. -/
theorem enrich_row_preservation {α : Type} (oracle : String → Nat → ReqOutcome)
    (df : DataFrame α) (h : df.cols.contains "Title" = true)
    (hne : enrichTable oracle (uniqueTitles df) ≠ []) :
    ∃ out, enrichDatasetWithApi oracle df "Title" = EnrichResult.enriched out ∧
      out.map Prod.fst = df.rows ∧
      out.length = df.rows.length ∧
      ((enrichTable oracle (uniqueTitles df)).map Prod.fst).Nodup := by
  have hnodup : ((enrichTable oracle (uniqueTitles df)).map Prod.fst).Nodup := by
    rw [enrichTable_keys]
    exact uniqueList_nodup _
  have hfst : (fillWithDefaults (leftMerge df.rows
      (enrichTable oracle (uniqueTitles df)))).map Prod.fst = df.rows := by
    unfold fillWithDefaults
    rw [List.map_map]
    exact leftMerge_map_fst _ hnodup df.rows
  have h' : "Title" ∈ df.cols := by simpa using h
  refine ⟨_, by simp [enrichDatasetWithApi, h', hne], hfst, ?_, hnodup⟩
  have := congrArg List.length hfst
  simpa using this

/-- Witness for `enrich_row_preservation` at a one-row dataset. -/
theorem enrich_row_preservation_witness :
    ∃ out, enrichDatasetWithApi (fun _ _ => ReqOutcome.timeout)
        (⟨["Title"], [(some "Dune", 0)]⟩ : DataFrame Nat) "Title"
        = EnrichResult.enriched out ∧
      out.map Prod.fst = [(some "Dune", 0)] ∧
      out.length = [((some "Dune" : Option String), (0 : Nat))].length ∧
      ((enrichTable (fun _ _ => ReqOutcome.timeout)
        (uniqueTitles (⟨["Title"], [(some "Dune", 0)]⟩ : DataFrame Nat))).map
          Prod.fst).Nodup :=
  enrich_row_preservation (fun _ _ => ReqOutcome.timeout)
    (⟨["Title"], [(some "Dune", 0)]⟩ : DataFrame Nat) rfl (by decide)

/-- C1 (corrected, counterexample): at a one-row dataset whose only
title cell is NaN, the unique-title list is empty, so the merge raises
an uncaught `KeyError` and the function produces no enriched output at
all — there is no output row whose enrichment attributes could be
complete, contrary to the for-every-dataset claim. -/
theorem enrich_completeness_fails_on_all_nan :
    enrichDatasetWithApi (fun _ _ => ReqOutcome.timeout)
        (⟨["Title"], [(none, 0)]⟩ : DataFrame Nat) "Title"
      = EnrichResult.mergeKeyError := rfl

/-- C1 (amended): with the title column present and at least one
non-null title, every output row carries a complete enrichment record
— either the record the enrichment table resolved for its title, or,
whenever the left join left the enrichment block null (NaN title, or a
title missing from the table), the Default Record Policy's record,
whose every attribute is the declared placeholder constant; when every
title is null the merge instead raises a `KeyError` and produces no
output. -/
theorem enrich_completeness {α : Type} (oracle : String → Nat → ReqOutcome)
    (df : DataFrame α) (h : df.cols.contains "Title" = true)
    (hne : enrichTable oracle (uniqueTitles df) ≠ []) :
    ∃ out, enrichDatasetWithApi oracle df "Title" = EnrichResult.enriched out ∧
      ∀ p ∈ out,
        ((∃ t, p.1.1 = some t ∧
            (t, p.2) ∈ enrichTable oracle (uniqueTitles df)) ∨
          p.2 = getDefaultData false) ∧
        (p.1.1 = none → p.2 = getDefaultData false) := by
  have h' : "Title" ∈ df.cols := by simpa using h
  refine ⟨fillWithDefaults (leftMerge df.rows
      (enrichTable oracle (uniqueTitles df))),
    by simp [enrichDatasetWithApi, h', hne], fun p hp => ?_⟩
  unfold fillWithDefaults at hp
  rw [List.mem_map] at hp
  obtain ⟨q, hq, hpq⟩ := hp
  obtain ⟨-, hcase⟩ := mem_leftMerge hq
  subst hpq
  rcases hcase with hnone | ⟨e, he, hk, hv⟩
  · rw [hnone]
    exact ⟨Or.inr rfl, fun _ => rfl⟩
  · rw [hv]
    refine ⟨Or.inl ⟨e.1, hk, ?_⟩, fun hn => ?_⟩
    · simpa using he
    · rw [hn] at hk
      exact absurd hk (by simp)

/-- Witness for `enrich_completeness` at a two-row dataset with one
NaN title. -/
theorem enrich_completeness_witness :
    ∃ out, enrichDatasetWithApi (fun _ _ => ReqOutcome.timeout)
        (⟨["Title"], [(some "Dune", 0), (none, 1)]⟩ : DataFrame Nat) "Title"
        = EnrichResult.enriched out ∧
      ∀ p ∈ out,
        ((∃ t, p.1.1 = some t ∧
            (t, p.2) ∈ enrichTable (fun _ _ => ReqOutcome.timeout)
              (uniqueTitles
                (⟨["Title"], [(some "Dune", 0), (none, 1)]⟩ : DataFrame Nat))) ∨
          p.2 = getDefaultData false) ∧
        (p.1.1 = none → p.2 = getDefaultData false) :=
  enrich_completeness (fun _ _ => ReqOutcome.timeout)
    (⟨["Title"], [(some "Dune", 0), (none, 1)]⟩ : DataFrame Nat) rfl (by decide)

/-- C5 (code bug, evidence): on a dataset without a `Title` column,
`enrich_dataset_with_api` returns the input dataframe unchanged
(line 127 `return df`), so the `if enriched_df is None` guard in `main`
(line 222) never fires and the pipeline proceeds to write the
un-enriched dataframe as the output file, instead of halting. -/
theorem missing_title_column_output_written :
    mainPipeline (fun _ _ => ReqOutcome.timeout)
        (⟨["X"], [(none, 7)]⟩ : DataFrame Nat)
      = some (EnrichResult.unchanged (⟨["X"], [(none, 7)]⟩ : DataFrame Nat)) ∧
    mainPipeline (fun _ _ => ReqOutcome.timeout)
        (⟨["X"], [(none, 7)]⟩ : DataFrame Nat) ≠ none :=
  ⟨rfl, by decide⟩

/-! ## Claim theorems: the Google Books strategy chain -/

lemma googleTitleStep_snd (oracle : GQuery → GResp) (title : String)
    (author : Val) (qs0 : List GQuery) :
    (googleTitleStep oracle title author qs0).2 =
      if titleEligible title then
        qs0 ++ [GQuery.titleQ title
          (if authorEligible author then some (pyStr author) else none)]
      else qs0 := by
  unfold googleTitleStep
  split
  · split <;> rfl
  · rfl

/-- Unfolding lemma for `getBookInfoFromGoogle`. -/
lemma getBookInfo_eq (oracle : GQuery → GResp) (isbn : Val) (title : String)
    (author : Val) :
    getBookInfoFromGoogle oracle isbn title author =
      if isbnEligible isbn then
        match oracle (GQuery.isbnQ (cleanIsbn isbn)) with
        | GResp.resp 200 (some (v :: _)) =>
            (some v, [GQuery.isbnQ (cleanIsbn isbn)])
        | _ => googleTitleStep oracle title author [GQuery.isbnQ (cleanIsbn isbn)]
      else googleTitleStep oracle title author [] := rfl

/-- C4 (corrected, counterexample): with identifier `9780441013593`,
title `"Dune"` and author `"Frank Herbert"`, an oracle under which the
identifier query and the title+author query both return no items but
the title-only query would return a match: the function returns no
match and never issues the title-only query — there is no title-only
fallback after a failed title+author query, contrary to the claim. -/
theorem google_no_title_only_fallback :
    getBookInfoFromGoogle
        (fun q => match q with
          | .titleQ _ none =>
              .resp 200 (some [⟨some 4, some 10, some 500, some ["Fiction"], some "x"⟩])
          | _ => .resp 200 none)
        (.vStr "9780441013593") "Dune" (.vStr "Frank Herbert")
      = (none, [.isbnQ "9780441013593", .titleQ "Dune" (some "Frank Herbert")]) ∧
    GQuery.titleQ "Dune" none ∉
      (getBookInfoFromGoogle
        (fun q => match q with
          | .titleQ _ none =>
              .resp 200 (some [⟨some 4, some 10, some 500, some ["Fiction"], some "x"⟩])
          | _ => .resp 200 none)
        (.vStr "9780441013593") "Dune" (.vStr "Frank Herbert")).2 :=
  ⟨rfl, by decide⟩

/-- C4 (amended): `get_book_info_from_google` tries the identifier
strategy first and short-circuits on its match without issuing any
title query; there is then a single title-based query, which carries
the `+inauthor:` term whenever a usable author is present — the
title-only form is used only when the author is absent or `'unknown'`,
never as a fallback after a failed title+author query, so at most one
title query is ever issued. -/
theorem google_strategy_order (oracle : GQuery → GResp) (isbn : Val)
    (title : String) (author : Val) :
    (∀ v vs, isbnEligible isbn = true →
      oracle (.isbnQ (cleanIsbn isbn)) = .resp 200 (some (v :: vs)) →
      getBookInfoFromGoogle oracle isbn title author
        = (some v, [.isbnQ (cleanIsbn isbn)])) ∧
    (authorEligible author = true →
      GQuery.titleQ title none ∉
        (getBookInfoFromGoogle oracle isbn title author).2) ∧
    ((getBookInfoFromGoogle oracle isbn title author).2.countP isTitleQ ≤ 1) := by
  refine ⟨fun v vs he ho => ?_, fun ha => ?_, ?_⟩
  · rw [getBookInfo_eq, if_pos he, ho]
  · rw [getBookInfo_eq]
    split
    · split
      · simp
      · rw [googleTitleStep_snd]
        split <;> simp [ha]
    · rw [googleTitleStep_snd]
      split <;> simp [ha]
  · rw [getBookInfo_eq]
    split
    · split
      · simp [isTitleQ, List.countP_cons, List.countP_nil]
      · rw [googleTitleStep_snd]
        split <;>
          simp [isTitleQ, List.countP_cons, List.countP_nil, List.countP_append]
    · rw [googleTitleStep_snd]
      split <;>
        simp [isTitleQ, List.countP_cons, List.countP_nil, List.countP_append]

/-- Witness for `google_strategy_order`: the identifier strategy
matches and the chain stops there. -/
theorem google_strategy_order_witness :
    getBookInfoFromGoogle
        (fun q => match q with
          | .isbnQ _ =>
              .resp 200 (some [⟨some 5, some 1, some 300, some ["SF"], some "d"⟩])
          | _ => .resp 200 none)
        (.vStr "123-4") "Dune" (.vStr "A")
      = (some ⟨some 5, some 1, some 300, some ["SF"], some "d"⟩, [.isbnQ "1234"]) ∧
    GQuery.titleQ "Dune" none ∉
      (getBookInfoFromGoogle
        (fun q => match q with
          | .isbnQ _ =>
              .resp 200 (some [⟨some 5, some 1, some 300, some ["SF"], some "d"⟩])
          | _ => .resp 200 none)
        (.vStr "123-4") "Dune" (.vStr "A")).2 ∧
    ((getBookInfoFromGoogle
        (fun q => match q with
          | .isbnQ _ =>
              .resp 200 (some [⟨some 5, some 1, some 300, some ["SF"], some "d"⟩])
          | _ => .resp 200 none)
        (.vStr "123-4") "Dune" (.vStr "A")).2.countP isTitleQ ≤ 1) :=
  ⟨(google_strategy_order _ (.vStr "123-4") "Dune" (.vStr "A")).1
      ⟨some 5, some 1, some 300, some ["SF"], some "d"⟩ [] rfl rfl,
    (google_strategy_order _ (.vStr "123-4") "Dune" (.vStr "A")).2.1 rfl,
    (google_strategy_order _ (.vStr "123-4") "Dune" (.vStr "A")).2.2⟩

/-! ## Helper lemmas: the Google cache -/

lemma dictGet_dictSet_self (k : String) (v : Info) :
    ∀ m, dictGet k (dictSet k v m) = some v := by
  intro m
  induction m with
  | nil => simp [dictGet, dictSet]
  | cons p ps ih =>
      by_cases h : p.1 = k
      · simp [dictGet, dictSet, h]
      · simp [dictGet, dictSet, h, ih]

lemma dictGet_dictSet_ne (k k' : String) (v : Info) (h : k' ≠ k) :
    ∀ m, dictGet k (dictSet k' v m) = dictGet k m := by
  intro m
  induction m with
  | nil => simp [dictGet, dictSet, h]
  | cons p ps ih =>
      by_cases hp : p.1 = k'
      · have hpk : p.1 ≠ k := by rw [hp]; exact h
        simp [dictGet, dictSet, hp, hpk, h]
      · simp [dictGet, dictSet, hp, ih]

lemma foldl_inv {σ ρ : Type} (P : σ → Prop) (f : σ → ρ → σ)
    (hstep : ∀ s r, P s → P (f s r)) :
    ∀ (l : List ρ) (s : σ), P s → P (l.foldl f s) := by
  intro l
  induction l with
  | nil => exact fun s hs => hs
  | cons r rs ih => exact fun s hs => ih _ (hstep s r hs)

/-! ## Claim theorems: the Google cache -/

/-- C7 (confirmed): per distinct (stripped) title key, at most one loop
iteration performs a remote lookup; every iteration's served record is
exactly what the cache holds for its key at the end of the run; and a
key already present in the loaded cache is always served its cached
record verbatim with no remote queries, regardless of the row's
identifier or author cells. -/
theorem google_cache_idempotence (oracle : GQuery → GResp)
    (cache0 : List (String × Info)) (rows : List GRow) (k : String) :
    ((googleLoop oracle cache0 rows).trace.countP
        (fun e => decide (e.key = k) && e.remote.isSome) ≤ 1) ∧
    (∀ e ∈ (googleLoop oracle cache0 rows).trace, e.key = k →
      dictGet k (googleLoop oracle cache0 rows).cache = some e.served) ∧
    (∀ i0, dictGet k cache0 = some i0 →
      ∀ e ∈ (googleLoop oracle cache0 rows).trace, e.key = k →
        e.remote = none ∧ e.served = i0) := by
  refine ⟨?_, ?_, ?_⟩
  · have main := foldl_inv
      (fun st => st.trace.countP (fun e => decide (e.key = k) && e.remote.isSome)
        ≤ (if (dictGet k st.cache).isSome then 1 else 0))
      (processRow oracle) ?_ rows (initState cache0) (by simp [initState])
    · refine le_trans main ?_
      split <;> omega
    · intro st r hP
      rcases hc : dictGet (rowKey r) st.cache with _ | info
      · by_cases hk : rowKey r = k
        · subst hk
          rw [hc] at hP
          simp only [Option.isSome_none, Bool.false_eq_true, if_false,
            Nat.le_zero] at hP
          simp [processRow, hc, List.countP_append, List.countP_cons,
            List.countP_nil, hP, dictGet_dictSet_self]
        · simp [processRow, hc, List.countP_append, List.countP_cons,
            List.countP_nil, hk, dictGet_dictSet_ne k (rowKey r) _ hk]
          exact hP
      · simp [processRow, hc, List.countP_append, List.countP_cons,
          List.countP_nil]
        exact hP
  · have main := foldl_inv
      (fun st => ∀ e ∈ st.trace, e.key = k →
        dictGet k st.cache = some e.served)
      (processRow oracle) ?_ rows (initState cache0) (by simp [initState])
    · exact main
    · intro st r hP
      rcases hc : dictGet (rowKey r) st.cache with _ | info
      · intro e he hek
        simp only [processRow, hc, List.mem_append, List.mem_singleton] at he
        rcases he with he | he
        · by_cases hk : rowKey r = k
          · rw [hk] at hc
            exact absurd (hP e he hek) (by simp [hc])
          · simp only [processRow, hc]
            rw [dictGet_dictSet_ne k (rowKey r) _ hk]
            exact hP e he hek
        · subst he
          simp only at hek
          subst hek
          simp only [processRow, hc]
          exact dictGet_dictSet_self _ _ _
      · intro e he hek
        simp only [processRow, hc, List.mem_append, List.mem_singleton] at he
        rcases he with he | he
        · simp only [processRow, hc]
          exact hP e he hek
        · subst he
          simp only at hek
          subst hek
          simp only [processRow, hc]
  · intro i0 hk0
    have main := foldl_inv
      (fun st => dictGet k st.cache = some i0 ∧
        ∀ e ∈ st.trace, e.key = k → e.remote = none ∧ e.served = i0)
      (processRow oracle) ?_ rows (initState cache0)
      (by simp [initState]; exact hk0)
    · exact main.2
    · intro st r hP
      obtain ⟨hPc, hPt⟩ := hP
      rcases hc : dictGet (rowKey r) st.cache with _ | info
      · by_cases hk : rowKey r = k
        · rw [hk] at hc
          rw [hc] at hPc
          exact absurd hPc (by simp)
        · constructor
          · simp only [processRow, hc]
            rw [dictGet_dictSet_ne k (rowKey r) _ hk]
            exact hPc
          · intro e he hek
            simp only [processRow, hc, List.mem_append,
              List.mem_singleton] at he
            rcases he with he | he
            · exact hPt e he hek
            · subst he
              simp only at hek
              exact absurd hek hk
      · constructor
        · simp only [processRow, hc]
          exact hPc
        · intro e he hek
          simp only [processRow, hc, List.mem_append, List.mem_singleton] at he
          rcases he with he | he
          · exact hPt e he hek
          · subst he
            simp only at hek
            refine ⟨rfl, ?_⟩
            rw [hek] at hc
            rw [hc] at hPc
            exact Option.some.inj hPc

/-- Witness for `google_cache_idempotence`: a cache pre-loaded with
`"Dune"` and two rows bearing that title with different identifier and
author cells. -/
theorem google_cache_idempotence_witness :
    dictGet "Dune" [("Dune", ⟨5, 1, 2, "SF", "ok"⟩)] = some ⟨5, 1, 2, "SF", "ok"⟩ ∧
    ((googleLoop (fun _ => GResp.resp 200 none) [("Dune", ⟨5, 1, 2, "SF", "ok"⟩)]
        [⟨.vStr "Dune", .vStr "111", .vStr "X"⟩,
         ⟨.vStr " Dune ", .vStr "222", .vStr "Y"⟩]).trace.countP
      (fun e => decide (e.key = "Dune") && e.remote.isSome) ≤ 1) ∧
    (googleLoop (fun _ => GResp.resp 200 none) [("Dune", ⟨5, 1, 2, "SF", "ok"⟩)]
        [⟨.vStr "Dune", .vStr "111", .vStr "X"⟩,
         ⟨.vStr " Dune ", .vStr "222", .vStr "Y"⟩]).trace.map RowLog.served
      = [⟨5, 1, 2, "SF", "ok"⟩, ⟨5, 1, 2, "SF", "ok"⟩] :=
  ⟨rfl,
    (google_cache_idempotence (fun _ => GResp.resp 200 none)
      [("Dune", ⟨5, 1, 2, "SF", "ok"⟩)]
      [⟨.vStr "Dune", .vStr "111", .vStr "X"⟩,
       ⟨.vStr " Dune ", .vStr "222", .vStr "Y"⟩] "Dune").1,
    by decide⟩

set_option maxRecDepth 40000 in
/-- C8 (corrected, counterexample): a 53-row run whose rows at indexes
0 and 50 hit a pre-loaded cache entry while every other row is a fresh
title: no mid-run flush ever fires (the `% 50` test only runs in the
miss branch, keyed to the all-rows counter), and 51 resolved entries
are sitting unflushed at once — more than the claimed bound of 50. -/
theorem flush_cadence_unbounded :
    50 < (runGoogleMain (fun _ => GResp.resp 200 none) [("h", defaultInfo)]
        ((List.range 53).map (fun i =>
          ⟨.vStr (if i = 0 ∨ i = 50 then "h" else "m" ++ toString i),
            .vStr "", .vStr ""⟩))).maxUnflushed := by
  decide

/-- C8 (amended): the durable cache file is rewritten once at shutdown
(after which nothing is unflushed), and during the run exactly on those
cache-miss iterations where the count of previously processed rows —
hits included — is a multiple of 50; since that counter is not the
resolution count, the number of unflushed entries is not bounded by
50. -/
theorem flush_shutdown_and_cadence (oracle : GQuery → GResp)
    (cache0 : List (String × Info)) (rows : List GRow) :
    (runGoogleMain oracle cache0 rows).flushed
      = (runGoogleMain oracle cache0 rows).cache ∧
    ∀ st r, (processRow oracle st r).flushed =
      if dictGet (rowKey r) st.cache = none ∧ st.rowsProcessed % 50 = 0
      then (processRow oracle st r).cache
      else st.flushed := by
  refine ⟨rfl, fun st r => ?_⟩
  rcases hc : dictGet (rowKey r) st.cache with _ | info
  · by_cases hm : st.rowsProcessed % 50 = 0
    · simp [processRow, hc, hm]
    · simp [processRow, hc, hm]
  · simp [processRow, hc]

end PustakaNusantara
